import Mathlib

/-!
Shallow embedding of the Enterprise AI News Aggregator pipeline
(`function_app.py`): relevance scoring, categorization, the
filter/sort/truncate aggregation step, and the two digest renderers.

Python strings are modelled as `List Char`; Python numbers (keyword
weights, relevance scores) as `ℚ`; Python substring tests (`needle in
haystack`) as `List.IsInfix` on the character lists; the ordered
dictionaries of the JSON configuration as association lists.  Network
fetching and feed parsing are external collaborators and are modelled
as an oracle returning `Except Unit (List RawEntry)`: an exception
raised while retrieving or parsing a feed is the `.error` case.
-/

namespace NewsAgg

/-- Python strings, modelled as lists of characters. -/
abbrev Str := List Char

/-- Python `s.lower()`. -/
def lowerStr (s : Str) : Str := s.map Char.toLower

/-- Python `s.upper()`. -/
def upperStr (s : Str) : Str := s.map Char.toUpper

/-- The `Article` dataclass of `function_app.py`.  `published` is an
abstract timestamp (`datetime` values are modelled as integers, ordered
as the datetimes are). -/
structure Article where
  title : Str
  link : Str
  source : Str
  published : Option Int := none
  summary : Str := []
  relevance_score : ℚ := 0
  matched_keywords : List Str := []
  category : Str := "General".toList
deriving DecidableEq

/-- The `relevance_keywords` configuration: an ordered mapping from
keyword to weight (insertion-ordered, as a Python dict). -/
abbrev RelevanceConfig := List (Str × ℚ)

/-- The `categories` configuration: an ordered mapping from category
label to its list of sub-keyword fragments. -/
abbrev CategoryConfig := List (Str × List Str)

/-- A JSON / Python scalar as it can appear for `min_relevance_score`:
an int, a float, or (via the environment) a string. -/
inductive PyVal where
  | int : Int → PyVal
  | float : ℚ → PyVal
  | str : Str → PyVal
deriving DecidableEq

/-- The `settings` section of `config.json`, with the defaults the
source applies at each access site already filled in
(`lookback_hours` 24, `max_articles_per_source` 10,
`max_articles_total` 25).  `min_relevance_score` is kept optional and
typed, because the source passes the raw configured value through
`int(...)` (line 188). -/
structure Settings where
  lookback_hours : Int := 24
  max_articles_per_source : Nat := 10
  max_articles_total : Nat := 25
  min_relevance_score : Option PyVal := none

/-- Python truthiness of a keyword hit for one category: does any of
the category's fragments occur (as a substring) in the lowercased
matched keyword?  Models `any(ck in kw.lower() for ck in category_keywords)`
on line 131. -/
def fragmentHit (category_keywords : List Str) (kw : Str) : Bool :=
  category_keywords.any (fun ck => decide (ck <:+: lowerStr kw))

/-- One category's score: `sum(1 for kw in keywords if any(...))`
(line 131). -/
def catScore (keywords : List Str) (category_keywords : List Str) : Nat :=
  keywords.countP (fragmentHit category_keywords)

/-- Python `max(iterable, key=...)` restricted to what line 135 needs:
left fold keeping the first element whose score is not exceeded later
(a later element replaces the current best only when strictly
greater, so the first maximum wins). -/
def pickBest (first : Str × Nat) (rest : List (Str × Nat)) : Str × Nat :=
  rest.foldl (fun b x => if b.2 < x.2 then x else b) first

/-- The `categorize` function (lines 126-139): score every configured
category against the matched keywords, take the first maximal one if
its score is positive, otherwise fall back to `"General"`. -/
def categorize (cats : CategoryConfig) (keywords : List Str) : Str :=
  let category_scores := cats.map (fun p => (p.1, catScore keywords p.2))
  match category_scores with
  | [] => "General".toList
  | first :: rest =>
      let best := pickBest first rest
      if 0 < best.2 then best.1 else "General".toList

/-- The lowercase haystack of line 144: `f"{title} {summary}".lower()`. -/
def textOf (a : Article) : Str := lowerStr (a.title ++ [' '] ++ a.summary)

/-- Python `keyword.lower() in text` (lines 150 and 156). -/
def kwMatch (text : Str) (keyword : Str) : Bool :=
  decide (lowerStr keyword <:+: text)

/-- The `score_relevance` function (lines 142-163): one pass over the
configuration accumulating full-text weight and the matched-keyword
list, a second pass over the lowercased title alone adding
`weight * 0.5`, then the article is updated in place and categorized
from the matched list. -/
def score_relevance (cfg : RelevanceConfig) (cats : CategoryConfig)
    (a : Article) : Article :=
  let text := textOf a
  let fullPass := cfg.foldl
    (fun acc p => if kwMatch text p.1 then (acc.1 + p.2, acc.2 ++ [p.1]) else acc)
    ((0 : ℚ), ([] : List Str))
  let title_lower := lowerStr a.title
  let score := cfg.foldl
    (fun s p => if kwMatch title_lower p.1 then s + p.2 * (1 / 2) else s)
    fullPass.1
  { a with relevance_score := score,
           matched_keywords := fullPass.2,
           category := categorize cats fullPass.2 }

/-- A raw feed entry as exposed by the external feed parser: title and
link are always present, summary / description and the two parsed
timestamps may be absent (Python `hasattr` + truthiness is modelled as
`Option.isSome`). -/
structure RawEntry where
  title : Str
  link : Str
  summary : Option Str := none
  description : Option Str := none
  published_parsed : Option Int := none
  updated_parsed : Option Int := none
deriving DecidableEq

/-- Python `re.sub(r'<[^>]+>', '', s)` (lines 107 and 109): delete
every non-overlapping leftmost match of `<`, one or more non-`>`
characters, then `>`.  At a `<` immediately followed by `>` there is no
match (the middle must be non-empty) and scanning moves on; when no `>`
occurs later at all, no further match is possible anywhere. -/
def stripTags : Str → Str
  | [] => []
  | c :: rest =>
    if c = '<' then
      match rest.findIdx? (fun d => decide (d = '>')) with
      | some i =>
        if i = 0 then c :: stripTags rest
        else stripTags (rest.drop (i + 1))
      | none => c :: rest
    else c :: stripTags rest
termination_by s => s.length
decreasing_by
  · simp
  · simp [List.length_drop]; omega
  · simp

/-- Summary extraction of lines 105-109: prefer `entry.summary`, else
`entry.description`, strip HTML tags and truncate to 500 characters. -/
def entrySummary (e : RawEntry) : Str :=
  match e.summary with
  | some s => (stripTags s).take 500
  | none =>
    match e.description with
    | some d => (stripTags d).take 500
    | none => []

/-- Publish date extraction of lines 96-100: `published_parsed` if
present, else `updated_parsed`, else none. -/
def entryDate (e : RawEntry) : Option Int :=
  match e.published_parsed with
  | some t => some t
  | none => e.updated_parsed

/-- The lookback cutoff test of lines 102-103: an entry is skipped iff
it has a known date strictly older than the cutoff. -/
def keepEntry (cutoff : Int) (e : RawEntry) : Bool :=
  match entryDate e with
  | some t => decide (cutoff ≤ t)
  | none => true

/-- Article construction of lines 111-117. -/
def mkArticle (source_name : Str) (e : RawEntry) : Article :=
  { title := e.title, link := e.link, source := source_name,
    published := entryDate e, summary := entrySummary e }

/-- The `fetch_feed` function (lines 82-123).  The network request and
feed parsing are external: `fetched` is their outcome, and any
exception they raise is the `.error` case, caught by the `try` block so
that the source contributes no articles.  On success the first
`max_per_source` entries are filtered by the lookback cutoff and turned
into articles. -/
def fetch_feed (source_name : Str) (fetched : Except Unit (List RawEntry))
    (lookback_hours : Int) (now : Int) (max_per_source : Nat) : List Article :=
  match fetched with
  | .error _ => []
  | .ok entries =>
      let cutoff := now - lookback_hours
      ((entries.take max_per_source).filter (keepEntry cutoff)).map
        (mkArticle source_name)

/-- Value of a non-empty all-digit string. -/
def digitsVal (s : Str) : Option Nat :=
  if s.isEmpty then none
  else if s.all Char.isDigit then
    some (s.foldl (fun n c => 10 * n + (c.toNat - 48)) 0)
  else none

/-- Python `int(string)`: an optional sign followed by digits parses,
anything else raises `ValueError` (in particular a float literal such
as `"5.7"` raises).  Python's tolerance for surrounding whitespace and
underscore digit separators is not modelled. -/
def parseIntStr : Str → Except Unit Int
  | '-' :: rest =>
    match digitsVal rest with
    | some n => .ok (-(n : Int))
    | none => .error ()
  | '+' :: rest =>
    match digitsVal rest with
    | some n => .ok (n : Int)
    | none => .error ()
  | s =>
    match digitsVal s with
    | some n => .ok (n : Int)
    | none => .error ()

/-- Truncation of a rational toward zero, as Python `int(float)`. -/
def ratTrunc (q : ℚ) : Int :=
  if q.num < 0 then -(((-q.num).toNat / q.den : Nat) : Int)
  else ((q.num.toNat / q.den : Nat) : Int)

/-- Python `int(x)` on the values that can reach line 188: ints pass
through, floats truncate toward zero, strings parse or raise. -/
def pyInt : PyVal → Except Unit Int
  | .int n => .ok n
  | .float q => .ok (ratTrunc q)
  | .str s => parseIntStr s

/-- The argument of the `int(...)` call on line 188:
`os.environ.get("MIN_RELEVANCE_SCORE", SETTINGS.get("min_relevance_score", 5))`.
An environment value is always a string; otherwise the configured value
(of whatever JSON type) or the literal default 5. -/
def minScoreArg (env : Option Str) (st : Settings) : PyVal :=
  match env with
  | some s => .str s
  | none => st.min_relevance_score.getD (.int 5)

/-- The filter predicate of line 191: `a.relevance_score >= min_score`
(float compared against int). -/
def passes_filter (min_score : Int) (a : Article) : Bool :=
  decide ((min_score : ℚ) ≤ a.relevance_score)

/-- The sort key of line 192: `sort(key=lambda x: x.relevance_score,
reverse=True)`, a stable descending sort, i.e. a stable sort under the
total relation "x comes no later than y iff y.score ≤ x.score". -/
def scoreDesc (x y : Article) : Bool :=
  decide (y.relevance_score ≤ x.relevance_score)

/-- The collection loops of `fetch_all_sources` (lines 168-182): every
daily source in declaration order, then, in weekly mode, every weekly
source with the hard-coded 168-hour lookback.  `oracle` gives each feed
URL's fetch/parse outcome. -/
def collect_all (daily weekly : List (Str × Str)) (include_weekly : Bool)
    (oracle : Str → Except Unit (List RawEntry)) (st : Settings)
    (now : Int) : List Article :=
  (daily.flatMap (fun src =>
    fetch_feed src.1 (oracle src.2) st.lookback_hours now st.max_articles_per_source))
  ++ (if include_weekly then
        weekly.flatMap (fun src =>
          fetch_feed src.1 (oracle src.2) 168 now st.max_articles_per_source)
      else [])

/-- The `fetch_all_sources` function (lines 166-196): collect, score,
compute the effective minimum score via `int(...)` (which can raise,
hence `Except`), filter, stable-sort descending, truncate. -/
def fetch_all_sources (daily weekly : List (Str × Str)) (include_weekly : Bool)
    (oracle : Str → Except Unit (List RawEntry))
    (cfg : RelevanceConfig) (cats : CategoryConfig) (st : Settings)
    (env : Option Str) (now : Int) : Except Unit (List Article) :=
  let all_articles := collect_all daily weekly include_weekly oracle st now
  let scored := all_articles.map (score_relevance cfg cats)
  match pyInt (minScoreArg env st) with
  | .error e => .error e
  | .ok min_score =>
      let relevant := scored.filter (passes_filter min_score)
      let sorted := relevant.mergeSort scoreDesc
      .ok (sorted.take st.max_articles_total)

/-- One step of the `by_category` dict-building loops (lines 201-205
and 375-379): append the article to its category's group, creating the
key at the end on first occurrence (Python dicts preserve insertion
order). -/
def addToCat (m : List (Str × List Article)) (a : Article) :
    List (Str × List Article) :=
  match m with
  | [] => [(a.category, [a])]
  | (c, g) :: rest =>
      if c = a.category then (c, g ++ [a]) :: rest
      else (c, g) :: addToCat rest a

/-- The `by_category` insertion-ordered dictionary built by both
renderers. -/
def byCategory (articles : List Article) : List (Str × List Article) :=
  articles.foldl addToCat []

/-- Dictionary lookup, `by_category[category]` guarded by
`category in by_category`. -/
def lookupCat : List (Str × List Article) → Str → Option (List Article)
  | [], _ => none
  | (c, g) :: rest, k => if c = k then some g else lookupCat rest k

/-- The fixed `category_order` list shared by both renderers
(lines 207-214 and 381-388). -/
def category_order : List Str :=
  [ "Higher Ed Specific".toList,
    "Strategy & Leadership".toList,
    "Policy & Governance".toList,
    "Enterprise Tech".toList,
    "AI/ML Developments".toList,
    "General".toList ]

/-- Display form of a relevance score, modelling the Python `:.0f`
format (round to the nearest integer; the exact tie-breaking mode of
float formatting is not modelled). -/
def formatScore (q : ℚ) : Str :=
  (toString (ratTrunc (q + 1 / 2))).toList

/-- Static head of the HTML template (lines 216-324) up to the
rendering date: doctype, the style sheet, the `h1` banner, and the
opening of the subtitle line. -/
def htmlPre1 : Str := (
  "\n" ++
  "<!DOCTYPE html>\n" ++
  "<html>\n" ++
  "<head>\n" ++
  "    <meta charset=\"utf-8\">\n" ++
  "    <style>\n" ++
  "        body \x7b\n" ++
  "            font-family: -apple-system, BlinkMacSystemFont, \x27Segoe UI\x27, Roboto, \x27Helvetica Neue\x27, Arial, sans-serif;\n" ++
  "            line-height: 1.6;\n" ++
  "            color: #333;\n" ++
  "            max-width: 700px;\n" ++
  "            margin: 0 auto;\n" ++
  "            padding: 20px;\n" ++
  "            background-color: #f5f5f5;\n" ++
  "        \x7d\n" ++
  "        .container \x7b\n" ++
  "            background-color: white;\n" ++
  "            border-radius: 8px;\n" ++
  "            padding: 30px;\n" ++
  "            box-shadow: 0 2px 4px rgba(0,0,0,0.1);\n" ++
  "        \x7d\n" ++
  "        h1 \x7b\n" ++
  "            color: #1a365d;\n" ++
  "            border-bottom: 3px solid #3182ce;\n" ++
  "            padding-bottom: 10px;\n" ++
  "            margin-bottom: 5px;\n" ++
  "        \x7d\n" ++
  "        .subtitle \x7b\n" ++
  "            color: #666;\n" ++
  "            font-size: 14px;\n" ++
  "            margin-bottom: 25px;\n" ++
  "        \x7d\n" ++
  "        h2 \x7b\n" ++
  "            color: #2c5282;\n" ++
  "            font-size: 18px;\n" ++
  "            margin-top: 30px;\n" ++
  "            margin-bottom: 15px;\n" ++
  "            padding: 8px 12px;\n" ++
  "            background-color: #ebf8ff;\n" ++
  "            border-left: 4px solid #3182ce;\n" ++
  "            border-radius: 0 4px 4px 0;\n" ++
  "        \x7d\n" ++
  "        .article \x7b\n" ++
  "            margin-bottom: 20px;\n" ++
  "            padding-bottom: 15px;\n" ++
  "            border-bottom: 1px solid #e2e8f0;\n" ++
  "        \x7d\n" ++
  "        .article:last-child \x7b\n" ++
  "            border-bottom: none;\n" ++
  "        \x7d\n" ++
  "        .article-title \x7b\n" ++
  "            font-size: 16px;\n" ++
  "            font-weight: 600;\n" ++
  "            margin-bottom: 5px;\n" ++
  "        \x7d\n" ++
  "        .article-title a \x7b\n" ++
  "            color: #2b6cb0;\n" ++
  "            text-decoration: none;\n" ++
  "        \x7d\n" ++
  "        .article-title a:hover \x7b\n" ++
  "            text-decoration: underline;\n" ++
  "        \x7d\n" ++
  "        .article-meta \x7b\n" ++
  "            font-size: 12px;\n" ++
  "            color: #718096;\n" ++
  "            margin-bottom: 8px;\n" ++
  "        \x7d\n" ++
  "        .source \x7b\n" ++
  "            background-color: #e2e8f0;\n" ++
  "            padding: 2px 8px;\n" ++
  "            border-radius: 12px;\n" ++
  "            font-weight: 500;\n" ++
  "        \x7d\n" ++
  "        .score \x7b\n" ++
  "            color: #38a169;\n" ++
  "            font-weight: 600;\n" ++
  "        \x7d\n" ++
  "        .summary \x7b\n" ++
  "            font-size: 14px;\n" ++
  "            color: #4a5568;\n" ++
  "        \x7d\n" ++
  "        .keywords \x7b\n" ++
  "            font-size: 11px;\n" ++
  "            color: #a0aec0;\n" ++
  "            margin-top: 5px;\n" ++
  "        \x7d\n" ++
  "        .footer \x7b\n" ++
  "            margin-top: 30px;\n" ++
  "            padding-top: 20px;\n" ++
  "            border-top: 1px solid #e2e8f0;\n" ++
  "            font-size: 12px;\n" ++
  "            color: #a0aec0;\n" ++
  "            text-align: center;\n" ++
  "        \x7d\n" ++
  "        .no-articles \x7b\n" ++
  "            color: #718096;\n" ++
  "            font-style: italic;\n" ++
  "            padding: 20px;\n" ++
  "            text-align: center;\n" ++
  "        \x7d\n" ++
  "    </style>\n" ++
  "</head>\n" ++
  "<body>\n" ++
  "    <div class=\"container\">\n" ++
  "        <h1>🎯 Enterprise AI Daily Briefing</h1>\n" ++
  "        <div class=\"subtitle\">\n" ++
  "            Higher Education Focus • ").toList

/-- Separator between the rendering date and the article count in the
subtitle line. -/
def htmlPre2 : Str := " • ".toList

/-- Tail of the subtitle block. -/
def htmlPre3 : Str := (
  " high-signal items\n" ++
  "        </div>\n").toList

/-- Everything of the HTML output up to and including the subtitle
block: `htmlPre1 ++ today ++ htmlPre2 ++ count ++ htmlPre3`, where
`today` is the formatted rendering date and `count` the number of
articles. -/
def htmlHeader (today : Str) (count : Nat) : Str :=
  htmlPre1 ++ today ++ htmlPre2 ++ (toString count).toList ++ htmlPre3

/-- The no-articles placeholder appended on line 327. -/
def noArticlesHtml : Str :=
  "<div class=\"no-articles\">No high-relevance articles found today. Check back tomorrow!</div>".toList

/-- The closing footer block of the HTML template (lines 352-360). -/
def htmlFooter : Str := (
  "\n" ++
  "        <div class=\"footer\">\n" ++
  "            Generated by Enterprise AI News Aggregator<br>\n" ++
  "            Focused on: AI Strategy • Policy • Higher Education • Enterprise Deployment\n" ++
  "        </div>\n" ++
  "    </div>\n" ++
  "</body>\n" ++
  "</html>\n").toList

/-- The truncated summary of line 335: first 300 characters, with an
ellipsis iff the summary was longer. -/
def summaryText (a : Article) : Str :=
  a.summary.take 300 ++ (if 300 < a.summary.length then "...".toList else [])

/-- The tag line of line 336: the first five matched keywords joined
by commas. -/
def keywordsText (a : Article) : Str :=
  List.intercalate ", ".toList (a.matched_keywords.take 5)

/-- One article block of the HTML template (lines 333-350).  `fmtPub`
models `strftime('%b %d, %I:%M %p')` for a present publish date; an
absent date renders as `Recent`. -/
def articleHtml (fmtPub : Int → Str) (a : Article) : Str :=
  let pub_str := match a.published with
    | some t => fmtPub t
    | none => "Recent".toList
  "\n        <div class=\"article\">\n            <div class=\"article-title\">\n                <a href=\"".toList
  ++ a.link
  ++ "\" target=\"_blank\">".toList
  ++ a.title
  ++ "</a>\n            </div>\n            <div class=\"article-meta\">\n                <span class=\"source\">".toList
  ++ a.source
  ++ "</span> • ".toList
  ++ pub_str
  ++ " • \n                <span class=\"score\">Relevance: ".toList
  ++ formatScore a.relevance_score
  ++ "</span>\n            </div>\n            <div class=\"summary\">".toList
  ++ summaryText a
  ++ "</div>\n            <div class=\"keywords\">Tags: ".toList
  ++ keywordsText a
  ++ "</div>\n        </div>\n".toList

/-- One category section of the HTML body (lines 329-350): the `h2`
heading followed by every article of the group in order. -/
def sectionHtml (fmtPub : Int → Str) (c : Str) (group : List Article) : Str :=
  "<h2>".toList ++ c ++ "</h2>".toList ++ group.flatMap (articleHtml fmtPub)

/-- The `generate_html_digest` function (lines 199-361): header with
date and count, then either the no-articles placeholder or, for each
category of `category_order` present in `by_category`, its section;
finally the fixed footer. -/
def generate_html_digest (fmtPub : Int → Str) (today : Str)
    (articles : List Article) : Str :=
  let by_cat := byCategory articles
  htmlHeader today articles.length
  ++ (if articles.isEmpty then noArticlesHtml
      else category_order.flatMap (fun c =>
        match lookupCat by_cat c with
        | none => []
        | some group => sectionHtml fmtPub c group))
  ++ htmlFooter

/-- The per-article lines of the text digest (lines 395-399).
`fmtPub` models `strftime('%b %d')`. -/
def articleTextLines (fmtPub : Int → Str) (a : Article) : List Str :=
  let pub_str := match a.published with
    | some t => fmtPub t
    | none => "Recent".toList
  [ "\n• ".toList ++ a.title,
    "  [".toList ++ a.source ++ "] ".toList ++ pub_str
      ++ " | Score: ".toList ++ formatScore a.relevance_score,
    "  ".toList ++ a.link ]

/-- The `generate_text_digest` function (lines 364-402): fixed header
lines, one block per present category in `category_order`, the closing
bar, all joined with newlines. -/
def generate_text_digest (fmtPub : Int → Str) (today : Str)
    (articles : List Article) : Str :=
  let header : List Str :=
    [ List.replicate 60 '=',
      "ENTERPRISE AI DAILY BRIEFING".toList,
      "Higher Education Focus • ".toList ++ today,
      (toString articles.length).toList ++ " high-signal items".toList,
      List.replicate 60 '=',
      [] ]
  let by_cat := byCategory articles
  let catLines : List Str := category_order.flatMap (fun c =>
    match lookupCat by_cat c with
    | none => []
    | some group =>
        ("\n▸ ".toList ++ upperStr c)
        :: List.replicate 40 '-'
        :: group.flatMap (articleTextLines fmtPub))
  let lines := header ++ catLines ++ ["\n".toList ++ List.replicate 60 '=']
  List.intercalate "\n".toList lines

/-- The scored article pool after the threshold filter of line 191,
named for use in statements about the tail of `fetch_all_sources`. -/
def relevantPool (daily weekly : List (Str × Str)) (include_weekly : Bool)
    (oracle : Str → Except Unit (List RawEntry))
    (cfg : RelevanceConfig) (cats : CategoryConfig) (st : Settings)
    (now : Int) (min_score : Int) : List Article :=
  ((collect_all daily weekly include_weekly oracle st now).map
    (score_relevance cfg cats)).filter (passes_filter min_score)

/-! Characterization of the two accumulation passes of
`score_relevance`. -/

theorem score_fullPass (cfg : RelevanceConfig) (text : Str) (s0 : ℚ)
    (m0 : List Str) :
    cfg.foldl
      (fun acc p => if kwMatch text p.1 then (acc.1 + p.2, acc.2 ++ [p.1]) else acc)
      (s0, m0)
    = (s0 + ((cfg.filter (fun p => kwMatch text p.1)).map Prod.snd).sum,
       m0 ++ (cfg.filter (fun p => kwMatch text p.1)).map Prod.fst) := by
  induction cfg generalizing s0 m0 with
  | nil => simp
  | cons p rest ih =>
    by_cases h : kwMatch text p.1
    · simp [h, ih, add_assoc]
    · simp [h, ih]

theorem score_titlePass (cfg : RelevanceConfig) (tl : Str) (s0 : ℚ) :
    cfg.foldl (fun s p => if kwMatch tl p.1 then s + p.2 * (1 / 2) else s) s0
    = s0 + ((cfg.filter (fun p => kwMatch tl p.1)).map (fun p => p.2 * (1 / 2))).sum := by
  induction cfg generalizing s0 with
  | nil => simp
  | cons p rest ih =>
    cases h : kwMatch tl p.1
    · simp only [List.foldl_cons, List.filter_cons, h, Bool.false_eq_true, if_false, ih]
    · simp only [List.foldl_cons, List.filter_cons, h, if_true, List.map_cons,
        List.sum_cons, ih]
      ring

theorem score_relevance_score (cfg : RelevanceConfig) (cats : CategoryConfig)
    (a : Article) :
    (score_relevance cfg cats a).relevance_score =
      ((cfg.filter (fun p => kwMatch (textOf a) p.1)).map Prod.snd).sum
      + ((cfg.filter (fun p => kwMatch (lowerStr a.title) p.1)).map
          (fun p => p.2 * (1 / 2))).sum := by
  simp only [score_relevance, score_fullPass, score_titlePass, zero_add]

theorem score_relevance_matched (cfg : RelevanceConfig) (cats : CategoryConfig)
    (a : Article) :
    (score_relevance cfg cats a).matched_keywords =
      (cfg.filter (fun p => kwMatch (textOf a) p.1)).map Prod.fst := by
  simp [score_relevance, score_fullPass]

theorem score_relevance_category (cfg : RelevanceConfig) (cats : CategoryConfig)
    (a : Article) :
    (score_relevance cfg cats a).category =
      categorize cats ((cfg.filter (fun p => kwMatch (textOf a) p.1)).map Prod.fst) := by
  simp [score_relevance, score_fullPass]

/-- C1.  For every article and every relevance configuration,
`score_relevance` sets `relevance_score` to the sum of the weights of
the configured keywords whose lowercase form is a substring of the
lowercase haystack `title ++ " " ++ summary`, plus `0.5` times the
weight of every configured keyword whose lowercase form is a substring
of the lowercase title alone; and it sets `matched_keywords` to
exactly the keywords found in the haystack, in configuration iteration
order — the title-bonus pass adds nothing to that list. -/
theorem claim_C1 (cfg : RelevanceConfig) (cats : CategoryConfig) (a : Article) :
    (score_relevance cfg cats a).relevance_score =
      ((cfg.filter (fun p => lowerStr p.1 <:+: lowerStr (a.title ++ [' '] ++ a.summary))).map
          Prod.snd).sum
      + ((cfg.filter (fun p => lowerStr p.1 <:+: lowerStr a.title)).map
          (fun p => p.2 * (1 / 2))).sum ∧
    (score_relevance cfg cats a).matched_keywords =
      (cfg.filter (fun p => lowerStr p.1 <:+: lowerStr (a.title ++ [' '] ++ a.summary))).map
        Prod.fst := by
  refine ⟨?_, ?_⟩
  · simpa [kwMatch, textOf] using score_relevance_score cfg cats a
  · simpa [kwMatch, textOf] using score_relevance_matched cfg cats a

theorem textOf_decomp (a : Article) :
    textOf a = lowerStr a.title ++ lowerStr ([' '] ++ a.summary) := by
  simp [textOf, lowerStr]

/-- C9.  The title-match bonus never applies to a keyword absent from
`matched_keywords`: whenever a configured keyword's lowercase form is a
substring of the lowercase title, it is also a substring of the full
haystack, hence the keyword appears in `matched_keywords` from the
full-text scan. -/
theorem claim_C9 (cfg : RelevanceConfig) (cats : CategoryConfig) (a : Article)
    (p : Str × ℚ) (hp : p ∈ cfg)
    (h : lowerStr p.1 <:+: lowerStr a.title) :
    (lowerStr p.1 <:+: textOf a) ∧
    p.1 ∈ (score_relevance cfg cats a).matched_keywords := by
  have htext : lowerStr p.1 <:+: textOf a := by
    rw [textOf_decomp]
    exact h.trans (List.prefix_append _ _).isInfix
  refine ⟨htext, ?_⟩
  rw [score_relevance_matched]
  exact List.mem_map.mpr
    ⟨p, List.mem_filter.mpr ⟨hp, by simpa [kwMatch] using htext⟩, rfl⟩

theorem claim_C9_witness :
    (lowerStr "K".toList <:+:
      textOf { title := "K Uni".toList, link := [], source := [] }) ∧
    "K".toList ∈ (score_relevance [("K".toList, (3 : ℚ))] []
      { title := "K Uni".toList, link := [], source := [] }).matched_keywords :=
  claim_C9 [("K".toList, (3 : ℚ))] []
    { title := "K Uni".toList, link := [], source := [] }
    ("K".toList, (3 : ℚ)) (List.mem_cons_self _ _) (by decide)

/-- C5 as stated is false: with the single keyword `k` of weight 10,
the article titled `k` (score `10 + 10 * 0.5 = 15`) and the article
titled `x` with summary `k` (score `10`) have equal matched-keyword
sets, yet the second — whose matched set includes the first's — has a
strictly smaller relevance score, because of the title bonus. -/
theorem claim_C5_counterexample :
    (∀ k ∈ (score_relevance [("k".toList, (10 : ℚ))] []
        { title := "k".toList, link := [], source := [] }).matched_keywords,
      k ∈ (score_relevance [("k".toList, (10 : ℚ))] []
        { title := "x".toList, link := [], source := [],
          summary := "k".toList }).matched_keywords) ∧
    (score_relevance [("k".toList, (10 : ℚ))] []
        { title := "x".toList, link := [], source := [],
          summary := "k".toList }).relevance_score
      < (score_relevance [("k".toList, (10 : ℚ))] []
        { title := "k".toList, link := [], source := [] }).relevance_score := by
  have hA : (score_relevance [("k".toList, (10 : ℚ))] []
      { title := "k".toList, link := [], source := [] }).relevance_score = 15 := by
    simp +decide [score_relevance, textOf, kwMatch, lowerStr]
    norm_num
  have hB : (score_relevance [("k".toList, (10 : ℚ))] []
      { title := "x".toList, link := [], source := [],
        summary := "k".toList }).relevance_score = 10 := by
    simp +decide [score_relevance, textOf, kwMatch, lowerStr]
  have hAm : (score_relevance [("k".toList, (10 : ℚ))] []
      { title := "k".toList, link := [], source := [] }).matched_keywords
      = ["k".toList] := by
    rw [score_relevance_matched]
    decide
  have hBm : (score_relevance [("k".toList, (10 : ℚ))] []
      { title := "x".toList, link := [], source := [],
        summary := "k".toList }).matched_keywords = ["k".toList] := by
    rw [score_relevance_matched]
    decide
  refine ⟨?_, ?_⟩
  · intro k hk
    rw [hBm]
    rw [hAm] at hk
    exact hk
  · rw [hA, hB]
    norm_num

theorem sum_filter_le (l : List (Str × ℚ)) (f : Str × ℚ → ℚ)
    (p q : Str × ℚ → Bool)
    (hf : ∀ x ∈ l, 0 ≤ f x) (hpq : ∀ x ∈ l, p x = true → q x = true) :
    ((l.filter p).map f).sum ≤ ((l.filter q).map f).sum := by
  induction l with
  | nil => simp
  | cons x xs ih =>
    have hf' : ∀ y ∈ xs, 0 ≤ f y := fun y hy => hf y (List.mem_cons_of_mem _ hy)
    have hpq' : ∀ y ∈ xs, p y = true → q y = true :=
      fun y hy => hpq y (List.mem_cons_of_mem _ hy)
    have base := ih hf' hpq'
    cases hp : p x
    · cases hq : q x
      · simpa [List.filter_cons, hp, hq] using base
      · have hx : 0 ≤ f x := hf x (List.mem_cons_self _ _)
        calc ((List.filter p (x :: xs)).map f).sum
            = ((xs.filter p).map f).sum := by simp [List.filter_cons, hp]
          _ ≤ ((xs.filter q).map f).sum := base
          _ ≤ f x + ((xs.filter q).map f).sum := le_add_of_nonneg_left hx
          _ = ((List.filter q (x :: xs)).map f).sum := by simp [List.filter_cons, hq]
    · have hqx : q x = true := hpq x (List.mem_cons_self _ _) hp
      calc ((List.filter p (x :: xs)).map f).sum
          = f x + ((xs.filter p).map f).sum := by simp [List.filter_cons, hp]
        _ ≤ f x + ((xs.filter q).map f).sum := by
            exact add_le_add_left base _
        _ = ((List.filter q (x :: xs)).map f).sum := by simp [List.filter_cons, hqx]

theorem matched_keyword_text (cfg : RelevanceConfig) (cats : CategoryConfig)
    (a : Article) (k : Str)
    (hk : k ∈ (score_relevance cfg cats a).matched_keywords) :
    kwMatch (textOf a) k = true := by
  rw [score_relevance_matched] at hk
  obtain ⟨p, hp, rfl⟩ := List.mem_map.mp hk
  exact (List.mem_filter.mp hp).2

/-- C5 (amended).  The relevance score is monotone in the matched
keywords provided all configured weights are nonnegative and the
title-matched keywords are likewise ordered by inclusion: if every
keyword matched by article `b` is matched by article `c`, and every
configured keyword found in `b`'s title is found in `c`'s title, then
`b`'s relevance score is at most `c`'s.  (The counterexample shows the
extra title hypothesis is needed; without nonnegative weights even the
pure full-text sum is not monotone.) -/
theorem claim_C5_amended (cfg : RelevanceConfig) (cats : CategoryConfig)
    (b c : Article)
    (hw : ∀ p ∈ cfg, (0 : ℚ) ≤ p.2)
    (hfull : ∀ k ∈ (score_relevance cfg cats b).matched_keywords,
      k ∈ (score_relevance cfg cats c).matched_keywords)
    (htitle : ∀ p : Str × ℚ, p ∈ cfg →
      lowerStr p.1 <:+: lowerStr b.title → lowerStr p.1 <:+: lowerStr c.title) :
    (score_relevance cfg cats b).relevance_score
      ≤ (score_relevance cfg cats c).relevance_score := by
  rw [score_relevance_score, score_relevance_score]
  have hfullpt : ∀ x ∈ cfg, kwMatch (textOf b) x.1 = true →
      kwMatch (textOf c) x.1 = true := by
    intro x hx hbx
    have hmem : x.1 ∈ (score_relevance cfg cats b).matched_keywords := by
      rw [score_relevance_matched]
      exact List.mem_map.mpr ⟨x, List.mem_filter.mpr ⟨hx, hbx⟩, rfl⟩
    exact matched_keyword_text cfg cats c x.1 (hfull x.1 hmem)
  have htitlept : ∀ x ∈ cfg, kwMatch (lowerStr b.title) x.1 = true →
      kwMatch (lowerStr c.title) x.1 = true := by
    intro x hx hbx
    simp only [kwMatch, decide_eq_true_eq] at hbx ⊢
    exact htitle x hx hbx
  refine add_le_add ?_ ?_
  · exact sum_filter_le cfg Prod.snd _ _ hw hfullpt
  · refine sum_filter_le cfg (fun p => p.2 * (1 / 2)) _ _ ?_ htitlept
    intro x hx
    have := hw x hx
    positivity

theorem claim_C5_amended_witness :
    (score_relevance [("k".toList, (10 : ℚ))] []
        { title := "x".toList, link := [], source := [],
          summary := "k".toList }).relevance_score
      ≤ (score_relevance [("k".toList, (10 : ℚ))] []
        { title := "k".toList, link := [], source := [] }).relevance_score := by
  refine claim_C5_amended [("k".toList, (10 : ℚ))] [] _ _ (by decide) ?_ (by decide)
  intro k hk
  rw [score_relevance_matched] at hk ⊢
  revert k
  decide

theorem pickBest_of_le (first : Str × Nat) (rest : List (Str × Nat))
    (h : ∀ y ∈ rest, y.2 ≤ first.2) :
    pickBest first rest = first := by
  induction rest with
  | nil => rfl
  | cons y ys ih =>
    have hy : ¬ first.2 < y.2 := not_lt.mpr (h y (List.mem_cons_self _ _))
    have tail : ∀ z ∈ ys, z.2 ≤ first.2 := fun z hz => h z (List.mem_cons_of_mem _ hz)
    simpa [pickBest, hy] using ih tail

theorem pickBest_first_max (m : Str × Nat) (post : List (Str × Nat))
    (hpost : ∀ y ∈ post, y.2 ≤ m.2) :
    ∀ (pre : List (Str × Nat)) (b : Str × Nat), b.2 < m.2 →
      (∀ y ∈ pre, y.2 < m.2) →
      List.foldl (fun b x => if b.2 < x.2 then x else b) b (pre ++ m :: post) = m := by
  intro pre
  induction pre with
  | nil =>
    intro b hb _
    have : List.foldl (fun b x => if b.2 < x.2 then x else b) m post = m :=
      pickBest_of_le m post hpost
    simpa [hb] using this
  | cons y ys ih =>
    intro b hb hpre
    have hy : y.2 < m.2 := hpre y (List.mem_cons_self _ _)
    have tail : ∀ z ∈ ys, z.2 < m.2 := fun z hz => hpre z (List.mem_cons_of_mem _ hz)
    by_cases hby : b.2 < y.2
    · simpa [hby] using ih y hy tail
    · simpa [hby] using ih b hb tail

theorem categorize_all_zero (cats : CategoryConfig) (kws : List Str)
    (h : ∀ p ∈ cats, catScore kws p.2 = 0) :
    categorize cats kws = "General".toList := by
  cases cats with
  | nil => rfl
  | cons c cs =>
    have hfirst : catScore kws c.2 = 0 := h c (List.mem_cons_self _ _)
    have hrest : ∀ y ∈ cs.map (fun p => (p.1, catScore kws p.2)),
        y.2 ≤ (c.1, catScore kws c.2).2 := by
      intro y hy
      obtain ⟨q, hq, rfl⟩ := List.mem_map.mp hy
      simp [h q (List.mem_cons_of_mem _ hq), hfirst]
    simp only [categorize, List.map_cons]
    rw [pickBest_of_le _ _ hrest]
    simp [hfirst]

theorem categorize_first_max (kws : List Str) (pre post : List (Str × List Str))
    (p : Str × List Str)
    (hpos : 0 < catScore kws p.2)
    (hpre : ∀ q ∈ pre, catScore kws q.2 < catScore kws p.2)
    (hpost : ∀ q ∈ post, catScore kws q.2 ≤ catScore kws p.2) :
    categorize (pre ++ p :: post) kws = p.1 := by
  have hpost' : ∀ y ∈ post.map (fun q => (q.1, catScore kws q.2)),
      y.2 ≤ (p.1, catScore kws p.2).2 := by
    intro y hy
    obtain ⟨q, hq, rfl⟩ := List.mem_map.mp hy
    exact hpost q hq
  cases pre with
  | nil =>
    simp only [categorize, List.nil_append, List.map_cons]
    rw [pickBest_of_le _ _ hpost']
    simp [hpos]
  | cons x xs =>
    have hx : catScore kws x.2 < catScore kws p.2 := hpre x (List.mem_cons_self _ _)
    have hxs : ∀ y ∈ xs.map (fun q => (q.1, catScore kws q.2)),
        y.2 < (p.1, catScore kws p.2).2 := by
      intro y hy
      obtain ⟨q, hq, rfl⟩ := List.mem_map.mp hy
      exact hpre q (List.mem_cons_of_mem _ hq)
    have key := pickBest_first_max (p.1, catScore kws p.2)
      (post.map (fun q => (q.1, catScore kws q.2))) hpost'
      (xs.map (fun q => (q.1, catScore kws q.2)))
      (x.1, catScore kws x.2) hx hxs
    simp only [categorize, List.cons_append, List.map_cons, List.map_append,
      pickBest]
    rw [key]
    simp [hpos]

/-- C3.  `categorize` returns the first category (in configuration
iteration order) whose fragment-containment count over the matched
keywords is maximal, provided that count is positive; whenever every
category's count is zero — in particular on the empty matched-keyword
list — it returns the fixed fallback `"General"`. -/
theorem claim_C3 (cats : CategoryConfig) (kws : List Str) :
    (categorize cats [] = "General".toList) ∧
    ((∀ p ∈ cats, catScore kws p.2 = 0) → categorize cats kws = "General".toList) ∧
    (∀ pre p post, cats = pre ++ p :: post →
      0 < catScore kws p.2 →
      (∀ q ∈ pre, catScore kws q.2 < catScore kws p.2) →
      (∀ q ∈ post, catScore kws q.2 ≤ catScore kws p.2) →
      categorize cats kws = p.1) := by
  refine ⟨?_, ?_, ?_⟩
  · exact categorize_all_zero cats [] (fun p _ => rfl)
  · exact categorize_all_zero cats kws
  · intro pre p post hdec hpos hpre hpost
    subst hdec
    exact categorize_first_max kws pre post p hpos hpre hpost

theorem claim_C3_witness :
    categorize [("A".toList, ["a".toList])] [] = "General".toList ∧
    categorize [("A".toList, ["a".toList]), ("B".toList, ["b".toList])]
      ["b!".toList] = "B".toList := by
  constructor
  · exact (claim_C3 [("A".toList, ["a".toList])] []).1
  · exact (claim_C3 [("A".toList, ["a".toList]), ("B".toList, ["b".toList])]
      ["b!".toList]).2.2
      [("A".toList, ["a".toList])] ("B".toList, ["b".toList]) []
      rfl (by decide) (by decide) (by decide)

theorem lookupCat_addToCat (m : List (Str × List Article)) (a : Article)
    (c : Str) :
    lookupCat (addToCat m a) c =
      if a.category = c then some ((lookupCat m c).getD [] ++ [a])
      else lookupCat m c := by
  induction m with
  | nil =>
    by_cases h : a.category = c <;> simp [addToCat, lookupCat, h]
  | cons hd rest ih =>
    obtain ⟨c', g⟩ := hd
    by_cases h1 : c' = a.category
    · by_cases h2 : c' = c
      · have hac : a.category = c := h1.symm.trans h2
        simp [addToCat, lookupCat, h1, h2, hac]
      · have hac : ¬ a.category = c := fun h => h2 (h1.trans h)
        simp [addToCat, lookupCat, h1, h2, hac]
    · by_cases h2 : c' = c
      · have hac : ¬ a.category = c := fun h => h1 (h2.trans h.symm)
        have h1' : ¬ c = a.category := by
          rw [← h2]
          exact h1
        simp [addToCat, lookupCat, h1', h2, hac]
      · simp [addToCat, lookupCat, h1, h2, ih]

theorem lookupCat_foldl (l : List Article) (m : List (Str × List Article))
    (c : Str) :
    lookupCat (l.foldl addToCat m) c =
      match lookupCat m c with
      | some g => some (g ++ l.filter (fun a => decide (a.category = c)))
      | none =>
          if l.filter (fun a => decide (a.category = c)) = [] then none
          else some (l.filter (fun a => decide (a.category = c))) := by
  induction l generalizing m with
  | nil =>
    cases h : lookupCat m c <;> simp [h]
  | cons a l ih =>
    rw [List.foldl_cons, ih]
    by_cases hac : a.category = c
    · rw [lookupCat_addToCat]
      cases h : lookupCat m c <;>
        simp [h, hac, List.filter_cons]
    · rw [lookupCat_addToCat]
      cases h : lookupCat m c <;>
        simp [h, hac, List.filter_cons]

theorem lookupCat_byCategory (articles : List Article) (c : Str) :
    lookupCat (byCategory articles) c =
      (if articles.filter (fun a => decide (a.category = c)) = [] then none
       else some (articles.filter (fun a => decide (a.category = c)))) := by
  rw [byCategory, lookupCat_foldl]
  simp [lookupCat]

theorem flatMap_lookup_filter {β : Type} (articles : List Article)
    (F : Str → List Article → List β) :
    (category_order.flatMap (fun c =>
        match lookupCat (byCategory articles) c with
        | none => []
        | some g => F c g))
    = category_order.flatMap (fun c =>
        if articles.filter (fun a => decide (a.category = c)) = [] then []
        else F c (articles.filter (fun a => decide (a.category = c)))) := by
  have hfun : (fun c => match lookupCat (byCategory articles) c with
      | none => ([] : List β)
      | some g => F c g)
      = (fun c =>
        if articles.filter (fun a => decide (a.category = c)) = [] then []
        else F c (articles.filter (fun a => decide (a.category = c)))) := by
    funext c
    rw [lookupCat_byCategory]
    by_cases h : articles.filter (fun a => decide (a.category = c)) = [] <;> simp [h]
  rw [hfun]

/-- C7.  Both renderers partition the input by `category` into
insertion-ordered groups that preserve each article's relative order
(every group is exactly the order-preserving filter of the input by its
category), emit the groups exactly in the fixed display order
`category_order`, and silently omit every article whose category is not
in that fixed list (such an article belongs to no emitted group). -/
theorem claim_C7 (fmtPub fmtPubShort : Int → Str) (today : Str)
    (articles : List Article) :
    (∀ c, lookupCat (byCategory articles) c =
      (if articles.filter (fun a => decide (a.category = c)) = [] then none
       else some (articles.filter (fun a => decide (a.category = c))))) ∧
    generate_html_digest fmtPub today articles =
      htmlHeader today articles.length
      ++ (if articles.isEmpty then noArticlesHtml
          else category_order.flatMap (fun c =>
            if articles.filter (fun a => decide (a.category = c)) = [] then []
            else sectionHtml fmtPub c
              (articles.filter (fun a => decide (a.category = c)))))
      ++ htmlFooter ∧
    generate_text_digest fmtPubShort today articles =
      List.intercalate "\n".toList
        ([ List.replicate 60 '=',
           "ENTERPRISE AI DAILY BRIEFING".toList,
           "Higher Education Focus • ".toList ++ today,
           (toString articles.length).toList ++ " high-signal items".toList,
           List.replicate 60 '=',
           [] ]
         ++ category_order.flatMap (fun c =>
              if articles.filter (fun a => decide (a.category = c)) = [] then []
              else ("\n▸ ".toList ++ upperStr c)
                :: List.replicate 40 '-'
                :: (articles.filter (fun a => decide (a.category = c))).flatMap
                     (articleTextLines fmtPubShort))
         ++ ["\n".toList ++ List.replicate 60 '=']) ∧
    (∀ a ∈ articles, a.category ∉ category_order →
      ∀ c g, c ∈ category_order →
        lookupCat (byCategory articles) c = some g → a ∉ g) := by
  refine ⟨lookupCat_byCategory articles, ?_, ?_, ?_⟩
  · rw [generate_html_digest]
    rw [flatMap_lookup_filter articles (fun c g => sectionHtml fmtPub c g)]
  · rw [generate_text_digest]
    rw [flatMap_lookup_filter articles (fun c g =>
      ("\n▸ ".toList ++ upperStr c) :: List.replicate 40 '-'
        :: g.flatMap (articleTextLines fmtPubShort))]
  · intro a ha hnot c g hc hg hmem
    rw [lookupCat_byCategory] at hg
    by_cases h : articles.filter (fun x => decide (x.category = c)) = []
    · rw [if_pos h] at hg
      exact Option.noConfusion hg
    · rw [if_neg h] at hg
      obtain rfl : articles.filter (fun x => decide (x.category = c)) = g :=
        Option.some.inj hg
      have := (List.mem_filter.mp hmem).2
      have hcat : a.category = c := by simpa using this
      exact hnot (hcat ▸ hc)

theorem claim_C7_witness :
    ({ title := "w".toList, link := [], source := [],
       category := "Weird".toList } : Article)
      ∉ [({ title := "g".toList, link := [], source := [],
            category := "General".toList } : Article)] := by
  refine (claim_C7 (fun _ => []) (fun _ => []) []
    [ { title := "g".toList, link := [], source := [],
        category := "General".toList },
      { title := "w".toList, link := [], source := [],
        category := "Weird".toList } ]).2.2.2
    _ (by simp) (by decide) "General".toList _ (by decide) ?_
  rfl

/-- C8.  Filtering is monotonic in the threshold: the pass predicate of
line 191 is antitone in the minimum score, so for `m1 ≤ m2` every
article passing the filter at threshold `m2` also passes at `m1`. -/
theorem claim_C8 (pool : List Article) (m1 m2 : Int) (h : m1 ≤ m2) :
    (∀ a : Article, passes_filter m2 a = true → passes_filter m1 a = true) ∧
    (∀ a ∈ pool.filter (passes_filter m2), a ∈ pool.filter (passes_filter m1)) := by
  have hpt : ∀ a : Article, passes_filter m2 a = true → passes_filter m1 a = true := by
    intro a ha
    simp only [passes_filter, decide_eq_true_eq] at ha ⊢
    calc (m1 : ℚ) ≤ (m2 : ℚ) := by exact_mod_cast h
      _ ≤ a.relevance_score := ha
  refine ⟨hpt, ?_⟩
  intro a ha
  obtain ⟨hmem, hpass⟩ := List.mem_filter.mp ha
  exact List.mem_filter.mpr ⟨hmem, hpt a hpass⟩

theorem claim_C8_witness :
    ({ title := "t".toList, link := [], source := [],
       relevance_score := 2 } : Article)
      ∈ ([{ title := "t".toList, link := [], source := [],
            relevance_score := 2 }] : List Article).filter (passes_filter 1) := by
  refine (claim_C8
    [{ title := "t".toList, link := [], source := [], relevance_score := 2 }]
    1 2 (by decide)).2 _ ?_
  simp [passes_filter]

/-- C10.  When the `MIN_RELEVANCE_SCORE` environment override is
present but not a valid integer string, `fetch_all_sources` raises (the
`int(...)` on line 188 fails) instead of falling back to the configured
default; when the override is absent, the configured
`min_relevance_score` is itself passed through `int(...)`, so a
fractional configured minimum is truncated toward zero before
filtering. -/
theorem claim_C10 (daily weekly : List (Str × Str)) (include_weekly : Bool)
    (oracle : Str → Except Unit (List RawEntry))
    (cfg : RelevanceConfig) (cats : CategoryConfig) (st : Settings) (now : Int) :
    (∀ s : Str, parseIntStr s = .error () →
      fetch_all_sources daily weekly include_weekly oracle cfg cats st
        (some s) now = .error ()) ∧
    (∀ q : ℚ,
      fetch_all_sources daily weekly include_weekly oracle cfg cats
        { st with min_relevance_score := some (.float q) } none now
      = fetch_all_sources daily weekly include_weekly oracle cfg cats
        { st with min_relevance_score := some (.int (ratTrunc q)) } none now) := by
  constructor
  · intro s hs
    simp [fetch_all_sources, minScoreArg, pyInt, hs]
  · intro q
    simp [fetch_all_sources, minScoreArg, pyInt, collect_all]

theorem claim_C10_witness :
    (fetch_all_sources [] [] false (fun _ => .error ()) [] []
      { min_relevance_score := none } (some "5.7".toList) 0 = .error ()) ∧
    (fetch_all_sources [] [] false (fun _ => .error ()) [] []
      { min_relevance_score := some (.float ((57 : ℚ) / 10)) } none 0
    = fetch_all_sources [] [] false (fun _ => .error ()) [] []
      { min_relevance_score := some (.int (ratTrunc ((57 : ℚ) / 10))) } none 0) :=
  ⟨(claim_C10 [] [] false (fun _ => .error ()) [] []
      { min_relevance_score := none } 0).1 "5.7".toList rfl,
   (claim_C10 [] [] false (fun _ => .error ()) [] []
      { min_relevance_score := none } 0).2 ((57 : ℚ) / 10)⟩

theorem flatMap_filter_of_empty {α β : Type} (l : List α) (p : α → Bool)
    (f : α → List β) (hf : ∀ x ∈ l, p x = false → f x = []) :
    l.flatMap f = (l.filter p).flatMap f := by
  induction l with
  | nil => rfl
  | cons x xs ih =>
    have tail : ∀ y ∈ xs, p y = false → f y = [] :=
      fun y hy => hf y (List.mem_cons_of_mem _ hy)
    cases hx : p x
    · simp [List.filter_cons, hx, hf x (List.mem_cons_self _ _) hx, ih tail]
    · simp [List.filter_cons, hx, ih tail]

theorem fetch_feed_of_error (source_name : Str) (r : Except Unit (List RawEntry))
    (hr : r.isOk = false) (lookback_hours now : Int) (max_per_source : Nat) :
    fetch_feed source_name r lookback_hours now max_per_source = [] := by
  cases r with
  | error e => rfl
  | ok entries => simp [Except.isOk, Except.toBool] at hr

/-- C6.  Per-source failures are isolated: a source whose fetch/parse
raises contributes zero articles, and the whole run computes the same
result as if only the succeeding sources had been configured. -/
theorem claim_C6 (daily weekly : List (Str × Str)) (include_weekly : Bool)
    (oracle : Str → Except Unit (List RawEntry))
    (cfg : RelevanceConfig) (cats : CategoryConfig) (st : Settings)
    (env : Option Str) (now : Int) :
    (∀ (name url : Str) (lookback : Int) (maxps : Nat),
      (oracle url).isOk = false →
      fetch_feed name (oracle url) lookback now maxps = []) ∧
    fetch_all_sources daily weekly include_weekly oracle cfg cats st env now
      = fetch_all_sources (daily.filter (fun src => (oracle src.2).isOk))
          (weekly.filter (fun src => (oracle src.2).isOk))
          include_weekly oracle cfg cats st env now := by
  refine ⟨fun name url lookback maxps h =>
    fetch_feed_of_error name (oracle url) h lookback now maxps, ?_⟩
  have hdaily :
      daily.flatMap (fun src => fetch_feed src.1 (oracle src.2)
          st.lookback_hours now st.max_articles_per_source)
      = (daily.filter (fun src => (oracle src.2).isOk)).flatMap
          (fun src => fetch_feed src.1 (oracle src.2)
            st.lookback_hours now st.max_articles_per_source) :=
    flatMap_filter_of_empty daily _ _
      (fun src _ h => fetch_feed_of_error src.1 (oracle src.2) h _ now _)
  have hweekly :
      weekly.flatMap (fun src => fetch_feed src.1 (oracle src.2)
          168 now st.max_articles_per_source)
      = (weekly.filter (fun src => (oracle src.2).isOk)).flatMap
          (fun src => fetch_feed src.1 (oracle src.2)
            168 now st.max_articles_per_source) :=
    flatMap_filter_of_empty weekly _ _
      (fun src _ h => fetch_feed_of_error src.1 (oracle src.2) h _ now _)
  simp only [fetch_all_sources, collect_all, hdaily, hweekly]

theorem claim_C6_witness :
    (fetch_feed "Bad Source".toList
      ((fun _ => (.error () : Except Unit (List RawEntry))) "u".toList)
      24 0 10 = []) ∧
    (fetch_all_sources
        [("Good".toList, "g".toList), ("Bad".toList, "b".toList)] [] false
        (fun url => if url = "g".toList then .ok [] else .error ())
        [] [] { min_relevance_score := none } none 0
      = fetch_all_sources [("Good".toList, "g".toList)] [] false
          (fun url => if url = "g".toList then .ok [] else .error ())
          [] [] { min_relevance_score := none } none 0) := by
  constructor
  · exact (claim_C6 [] [] false (fun _ => .error ()) [] []
      { min_relevance_score := none } none 0).1
      "Bad Source".toList "u".toList 24 10 rfl
  · have h := (claim_C6 [("Good".toList, "g".toList), ("Bad".toList, "b".toList)]
      [] false (fun url => if url = "g".toList then .ok [] else .error ())
      [] [] { min_relevance_score := none } none 0).2
    simpa using h

theorem scoreDesc_trans (a b c : Article) :
    scoreDesc a b → scoreDesc b c → scoreDesc a c := by
  simp only [scoreDesc, decide_eq_true_eq]
  exact fun h1 h2 => h2.trans h1

theorem scoreDesc_total (a b : Article) : scoreDesc a b || scoreDesc b a := by
  simp only [scoreDesc]
  rcases le_total a.relevance_score b.relevance_score with h | h <;> simp [h]

/-- C2.  Under a successfully converted minimum score `m`,
`fetch_all_sources` returns exactly the scored pool filtered to
articles with `relevance_score ≥ m`, stably sorted in descending score
order, and truncated to `max_articles_total`; the sorted list is a
permutation of the filtered pool, is pairwise descending, retains the
relative order of equal-score articles, and the output length never
exceeds the cap; the value fed to the conversion is the environment
override when present, else the configured minimum, else the literal 5. -/
theorem claim_C2 (daily weekly : List (Str × Str)) (include_weekly : Bool)
    (oracle : Str → Except Unit (List RawEntry))
    (cfg : RelevanceConfig) (cats : CategoryConfig) (st : Settings)
    (env : Option Str) (now : Int) (m : Int)
    (h : pyInt (minScoreArg env st) = .ok m) :
    fetch_all_sources daily weekly include_weekly oracle cfg cats st env now
      = .ok (((relevantPool daily weekly include_weekly oracle cfg cats st now m).mergeSort
          scoreDesc).take st.max_articles_total) ∧
    ((relevantPool daily weekly include_weekly oracle cfg cats st now m).mergeSort
        scoreDesc).Perm
      (relevantPool daily weekly include_weekly oracle cfg cats st now m) ∧
    ((relevantPool daily weekly include_weekly oracle cfg cats st now m).mergeSort
        scoreDesc).Pairwise
      (fun x y => y.relevance_score ≤ x.relevance_score) ∧
    (∀ a b : Article, a.relevance_score = b.relevance_score →
      List.Sublist [a, b]
        (relevantPool daily weekly include_weekly oracle cfg cats st now m) →
      List.Sublist [a, b]
        ((relevantPool daily weekly include_weekly oracle cfg cats st now m).mergeSort
          scoreDesc)) ∧
    (((relevantPool daily weekly include_weekly oracle cfg cats st now m).mergeSort
        scoreDesc).take st.max_articles_total).length ≤ st.max_articles_total ∧
    (∀ s : Str, env = some s → minScoreArg env st = PyVal.str s) ∧
    (env = none →
      minScoreArg env st = st.min_relevance_score.getD (PyVal.int 5)) := by
  refine ⟨?_, ?_, ?_, ?_, ?_, ?_, ?_⟩
  · simp [fetch_all_sources, h, relevantPool]
  · exact List.mergeSort_perm _ scoreDesc
  · exact (List.sorted_mergeSort scoreDesc_trans scoreDesc_total _).imp
      (by simp only [scoreDesc, decide_eq_true_eq]; exact fun h => h)
  · intro a b hab hsub
    refine List.pair_sublist_mergeSort scoreDesc_trans scoreDesc_total ?_ hsub
    simp [scoreDesc, hab]
  · exact List.length_take_le _ _
  · intro s hs
    rw [hs]
    rfl
  · intro hn
    rw [hn]
    rfl

theorem claim_C2_witness :
    fetch_all_sources [] [] false (fun _ => .error ()) [] []
      { min_relevance_score := none } (some "7".toList) 0 = .ok [] := by
  have h := (claim_C2 [] [] false (fun _ => .error ()) [] []
    { min_relevance_score := none } (some "7".toList) 0 7 rfl).1
  simpa [relevantPool, collect_all] using h

set_option maxRecDepth 10000 in
/-- C4 fails for the text renderer: on the empty article list the text
digest contains no occurrence of the word `articles` at all (even
case-insensitively), hence no explicit no-articles message — it renders
only the header with `0 high-signal items` and the closing bar.  Only
the HTML renderer has the placeholder. -/
theorem claim_C4_counterexample :
    ¬ ("articles".toList <:+:
        lowerStr (generate_text_digest (fun _ => []) "D".toList [])) := by
  decide

/-- C4 (amended).  On the empty article list both renderers produce
non-empty output; the HTML digest contains the explicit placeholder
`No high-relevance articles found today. Check back tomorrow!`, while
the text digest contains the `0 high-signal items` header line but no
explicit no-articles message. -/
theorem claim_C4_amended (fmtPub fmtPubShort : Int → Str) (today : Str) :
    (noArticlesHtml <:+: generate_html_digest fmtPub today []) ∧
    generate_html_digest fmtPub today [] ≠ [] ∧
    ("0 high-signal items".toList <:+: generate_text_digest fmtPubShort today []) ∧
    generate_text_digest fmtPubShort today [] ≠ [] := by
  have hhtml : generate_html_digest fmtPub today [] =
      htmlHeader today 0 ++ (noArticlesHtml ++ htmlFooter) := by
    simp [generate_html_digest, List.append_assoc]
  have htext : generate_text_digest fmtPubShort today [] =
      (List.replicate 60 '='
        ++ "\nENTERPRISE AI DAILY BRIEFING\nHigher Education Focus • ".toList
        ++ today)
      ++ ("\n0 high-signal items\n".toList ++ List.replicate 60 '='
          ++ "\n\n\n".toList ++ List.replicate 60 '=') := by
    simp [generate_text_digest, byCategory, category_order, lookupCat,
      List.intercalate, List.intersperse,
      show (toString (0 : Nat)).data = ['0'] from rfl]
  refine ⟨?_, ?_, ?_, ?_⟩
  · rw [hhtml]
    exact ⟨htmlHeader today 0, htmlFooter, by simp [List.append_assoc]⟩
  · rw [hhtml]
    exact List.append_ne_nil_of_right_ne_nil _
      (List.append_ne_nil_of_left_ne_nil (by decide) _)
  · rw [htext]
    refine List.IsInfix.trans ?_ (List.suffix_append _ _).isInfix
    decide
  · rw [htext]
    exact List.append_ne_nil_of_right_ne_nil _
      (List.append_ne_nil_of_left_ne_nil (by decide) _)

end NewsAgg
